import Mathlib

/-!
# Verification of the registry client (`src/registry.ts`)

A shallow embedding of the container-registry HTTP client.  Bytes are
`List Nat` (each byte < 256), HTTP responses are records holding the status
code and the three headers the client reads, and the transport is a script:
the list of results (`Except err response`) the callbacks receive, in request
order.  Each client operation becomes a pure Lean function from its inputs and
the transport script to the list of requests it issued and the promise's
outcome.  JavaScript truthiness, string coercion (`x + ''`) and the
`crypto`/`JSON` builtins are modelled explicitly below.
-/

namespace Registry

/-! ## Bytes and SHA-256 (model of node's `crypto.createHash('sha256')`) -/

abbrev Bytes := List Nat

/-- Truncate to a 32-bit word, as node's hash arithmetic does. -/
def w32 (n : Nat) : Nat := n % 4294967296

/-- 32-bit right rotation (input assumed < 2^32). -/
def rotr (n x : Nat) : Nat := w32 ((x >>> n) ||| (x <<< (32 - n)))

/-- 32-bit bitwise complement. -/
def not32 (x : Nat) : Nat := x ^^^ 4294967295

/-- The SHA-256 round constants. -/
def sha256K : Array Nat := #[
  1116352408, 1899447441, 3049323471, 3921009573, 961987163, 1508970993,
  2453635748, 2870763221, 3624381080, 310598401, 607225278, 1426881987,
  1925078388, 2162078206, 2614888103, 3248222580, 3835390401, 4022224774,
  264347078, 604807628, 770255983, 1249150122, 1555081692, 1996064986,
  2554220882, 2821834349, 2952996808, 3210313671, 3336571891, 3584528711,
  113926993, 338241895, 666307205, 773529912, 1294757372, 1396182291,
  1695183700, 1986661051, 2177026350, 2456956037, 2730485921, 2820302411,
  3259730800, 3345764771, 3516065817, 3600352804, 4094571909, 275423344,
  430227734, 506948616, 659060556, 883997877, 958139571, 1322822218,
  1537002063, 1747873779, 1955562222, 2024104815, 2227730452, 2361852424,
  2428436474, 2756734187, 3204031479, 3329325298]

/-- Group a byte list into big-endian 32-bit words. -/
def toWords : List Nat → List Nat
  | b0 :: b1 :: b2 :: b3 :: rest =>
      (((b0 * 256 + b1) * 256 + b2) * 256 + b3) :: toWords rest
  | _ => []

/-- Big-endian 8-byte encoding of a (length) value. -/
def be64 (n : Nat) : List Nat :=
  [(n >>> 56) % 256, (n >>> 48) % 256, (n >>> 40) % 256, (n >>> 32) % 256,
   (n >>> 24) % 256, (n >>> 16) % 256, (n >>> 8) % 256, n % 256]

/-- SHA-256 padding: 0x80, zeros to 56 mod 64, then the bit length. -/
def padMsg (msg : Bytes) : Bytes :=
  let L := msg.length
  let k := (64 - ((L + 9) % 64)) % 64
  msg ++ [0x80] ++ List.replicate k 0 ++ be64 (L * 8)

/-- Extend the 16-word schedule to 64 words. -/
def extendW : Nat → Array Nat → Array Nat
  | 0, w => w
  | n + 1, w =>
      let i := w.size
      let s0 := rotr 7 (w.getD (i - 15) 0) ^^^ rotr 18 (w.getD (i - 15) 0) ^^^
                ((w.getD (i - 15) 0) >>> 3)
      let s1 := rotr 17 (w.getD (i - 2) 0) ^^^ rotr 19 (w.getD (i - 2) 0) ^^^
                ((w.getD (i - 2) 0) >>> 10)
      extendW n (w.push (w32 (w.getD (i - 16) 0 + s0 + w.getD (i - 7) 0 + s1)))

/-- One state vector of eight 32-bit words. -/
abbrev Hash8 := Nat × Nat × Nat × Nat × Nat × Nat × Nat × Nat

/-- The 64 compression rounds. -/
def rounds : Nat → Nat → Array Nat → Hash8 → Hash8
  | 0, _, _, st => st
  | n + 1, i, w, (a, b, c, d, e, f, g, h) =>
      let S1 := rotr 6 e ^^^ rotr 11 e ^^^ rotr 25 e
      let ch := (e &&& f) ^^^ (not32 e &&& g)
      let t1 := w32 (h + S1 + ch + sha256K.getD i 0 + w.getD i 0)
      let S0 := rotr 2 a ^^^ rotr 13 a ^^^ rotr 22 a
      let maj := (a &&& b) ^^^ (a &&& c) ^^^ (b &&& c)
      let t2 := w32 (S0 + maj)
      rounds n (i + 1) w (w32 (t1 + t2), a, b, c, w32 (d + t1), e, f, g)

/-- Compress one 64-byte chunk into the running state. -/
def compress (st : Hash8) (chunk : Bytes) : Hash8 :=
  let w := extendW 48 (toWords chunk).toArray
  let (a, b, c, d, e, f, g, h) := rounds 64 0 w st
  let (h0, h1, h2, h3, h4, h5, h6, h7) := st
  (w32 (h0 + a), w32 (h1 + b), w32 (h2 + c), w32 (h3 + d),
   w32 (h4 + e), w32 (h5 + f), w32 (h6 + g), w32 (h7 + h))

/-- Fold the compression over the chunks (fuel = number of chunks). -/
def sha256loop : Nat → Hash8 → Bytes → Hash8
  | 0, st, _ => st
  | n + 1, st, msg => sha256loop n (compress st (msg.take 64)) (msg.drop 64)

/-- Serialize the state back to 32 big-endian bytes. -/
def hashBytes (st : Hash8) : Bytes :=
  let (a, b, c, d, e, f, g, h) := st
  [a, b, c, d, e, f, g, h].flatMap fun x =>
    [(x >>> 24) % 256, (x >>> 16) % 256, (x >>> 8) % 256, x % 256]

/-- SHA-256 of a byte list. -/
def sha256 (msg : Bytes) : Bytes :=
  let padded := padMsg msg
  hashBytes (sha256loop (padded.length / 64)
    (1779033703, 3144134277, 1013904242, 2773480762,
     1359893119, 2600822924, 528734635, 1541459225) padded)

/-- Lowercase hex digit. -/
def hexChar (n : Nat) : Char :=
  if n < 10 then Char.ofNat (48 + n) else Char.ofNat (87 + n)

/-- Lowercase hex rendering of a byte list, as `.digest('hex')` yields. -/
def bytesHex (bs : Bytes) : String :=
  String.mk (bs.flatMap fun b => [hexChar (b / 16), hexChar (b % 16)])

/-- `'sha256:' + createHash('sha256').update(b).digest('hex')`. -/
def sha256digest (b : Bytes) : String := "sha256:" ++ bytesHex (sha256 b)

/-! ## HTTP model

The client only ever reads three response headers (`docker-upload-uuid`,
`docker-content-digest`, `location`), so a `Response` carries exactly those,
each an `Option String` (`none` = header absent).  The transport (the
`request` library) is modelled by a script: the list of results the request
callbacks receive, in the order the requests are issued.  A result is either
a transport error (the callback's `err` argument; the library then passes no
response object) or a response together with its body.  The `Authorization`
header is computed identically for every request and affects no claim, so it
is not modelled. -/

structure Response where
  statusCode : Nat
  dockerUploadUuid : Option String := none
  dockerContentDigest : Option String := none
  location : Option String := none
  deriving DecidableEq

structure Reply where
  res : Response
  body : String
  deriving DecidableEq

/-- One callback result: `err` (modelled by its message) xor a reply. -/
abbrev TResult := Except String Reply

structure Request where
  method : String
  url : String
  body : Bytes
  deriving DecidableEq

/-- The values an operation can reject with. -/
inductive JsError
  | transport (e : String)     -- `reject(err)`: the transport error object
  | error (msg : String)       -- `reject(new Error(msg))`
  | parseErr (body : String)   -- `JSON.parse` threw, caught and rejected
  | typeError                  -- property access on `null`, caught and rejected
  deriving DecidableEq

/-- How the returned promise settles (or fails to). -/
inductive Outcome (α : Type)
  | resolved (a : α)
  | rejected (e : JsError)
  | crashed            -- a callback threw outside any try/catch before
                       -- settling the promise: the promise never settles
  | pending            -- the transport never invoked the callback
  deriving DecidableEq

/-! ## JavaScript semantics helpers -/

/-- JS truthiness of a possibly-undefined string: `undefined` and `''` are falsy. -/
def truthyStr : Option String → Bool
  | none => false
  | some s => s ≠ ""

/-- JS truthiness of a possibly-undefined number: `undefined` and `0` are falsy. -/
def truthyNum : Option Nat → Bool
  | none => false
  | some n => n ≠ 0

/-- JS string coercion `x + ''` of a possibly-undefined string. -/
def plusEmpty : Option String → String
  | none => "undefined"
  | some s => s

/-- JSON values, the possible results of a successful `JSON.parse`. -/
inductive Json
  | null
  | bool (b : Bool)
  | num (n : Int)
  | str (s : String)
  | arr (elems : List Json)
  | obj (fields : List (String × Json))

/-- JS property read `j.k`: `none` (undefined) unless `j` is an object having
the field.  Reading a property of `null` throws instead; callers model that
case separately. -/
def Json.getProp : Json → String → Option Json
  | .obj fields, k => fields.lookup k
  | _, _ => none

/-- JS truthiness of a property-read result: `undefined`, `null`, `false`,
`0` and `''` are falsy; every other object/value is truthy. -/
def truthyJson : Option Json → Bool
  | none => false
  | some .null => false
  | some (.bool b) => b
  | some (.num n) => n != 0
  | some (.str s) => s ≠ ""
  | some (.arr _) => true
  | some (.obj _) => true

/-! ## The client -/

/-- The façade state: `this._registry` and `this._repository`. -/
structure RegistryClient where
  registry : String
  repository : String

/-- `https://${this._registry}/v2/${this._repository}` -/
def baseUrl (c : RegistryClient) : String :=
  "https://" ++ c.registry ++ "/v2/" ++ c.repository

/-- `tags()` (registry.ts lines 38-57): GET `tags/list`; reject on transport
error; otherwise `JSON.parse` the body and resolve the parsed value — no
status check — rejecting only if the parse throws.  `parse` stands for JS
`JSON.parse` (`none` = it throws). -/
def tags (c : RegistryClient) (parse : String → Option Json) (t : TResult) :
    Request × Outcome Json :=
  let req : Request := ⟨"GET", baseUrl c ++ "/tags/list", []⟩
  match t with
  | .error e => (req, .rejected (.transport e))
  | .ok r =>
      match parse r.body with
      | none => (req, .rejected (.parseErr r.body))
      | some j => (req, .resolved j)

/-- `manifest(tag)` (lines 59-88): GET `manifests/{tag}`; reject on transport
error; parse the body (parse failure → rejected with the thrown error); then
`if (res.statusCode === 200 && parsed.config)` resolve the parsed manifest,
else reject `unexpected status code ...`.  The `&&` short-circuits: the
`parsed.config` read only happens when the status is 200, so a body parsing
to `null` throws the TypeError (caught by the `catch`, which rejects with it)
only on a 200 response; on any other status the else branch rejects with the
unexpected-status error without touching `parsed`. -/
def manifest (c : RegistryClient) (parse : String → Option Json) (tag : String)
    (t : TResult) : Request × Outcome Json :=
  let req : Request := ⟨"GET", baseUrl c ++ "/manifests/" ++ tag, []⟩
  match t with
  | .error e => (req, .rejected (.transport e))
  | .ok r =>
      match parse r.body with
      | none => (req, .rejected (.parseErr r.body))
      | some parsed =>
          if r.res.statusCode == 200 then
            match parsed with
            | .null => (req, .rejected .typeError)
            | _ =>
                if truthyJson (parsed.getProp "config") then
                  (req, .resolved parsed)
                else
                  (req, .rejected (.error ("unexpected status code " ++
                    toString r.res.statusCode ++
                    " from docker registry. response " ++ r.body)))
          else
            (req, .rejected (.error ("unexpected status code " ++
              toString r.res.statusCode ++ " from docker registry. response " ++
              r.body)))

structure ManifestPutResult where
  status : Nat
  digest : String
  body : String
  deriving DecidableEq

/-- Lines 99-103: `if (!tag) tag = digest` — JS falsiness replaces both
`false` (`none`) and the empty string by the digest. -/
def manifestRef (tag : Option String) (digest : String) : String :=
  match tag with
  | none => digest
  | some s => if s == "" then digest else s

/-- `manifestUpload(tag, manifest)` (lines 90-134).  `manifestBuf` is the
serialized manifest bytes (the given Buffer, or `JSON.stringify` of the given
object — line 93-95).  `tag : Option String` models `tag: string|false`
(`none` = `false`).  The digest is computed locally over `manifestBuf`; the JS
check `if (!tag)` replaces both `false` and the empty string by the digest as
the path reference.  Accepted statuses are 200 and 201; the resolved digest is
the locally computed one (the commented-out alternative
`res.headers['docker-content-digest']` is NOT used here). -/
def manifestUpload (c : RegistryClient) (tag : Option String) (manifestBuf : Bytes)
    (t : TResult) : Request × Outcome ManifestPutResult :=
  let digest := sha256digest manifestBuf
  let req : Request :=
    ⟨"PUT", baseUrl c ++ "/manifests/" ++ manifestRef tag digest, manifestBuf⟩
  (req,
   match t with
   | .error e => .rejected (.transport e)
   | .ok r =>
      if r.res.statusCode != 200 && r.res.statusCode != 201 then
        .rejected (.error ("unexpected status code " ++
          toString r.res.statusCode ++ " " ++ r.body))
      else
        .resolved ⟨r.res.statusCode, digest, r.body⟩)

/-- `blobExists(digest)` (lines 136-147): HEAD the blob URL; on a transport
error the promise is rejected with it (the callback then also reads
`res.statusCode` of an undefined response and throws, but the rejection has
already settled the promise); otherwise resolve `res.statusCode === 200`. -/
def blobExists (c : RegistryClient) (digest : String) (t : TResult) :
    Request × Outcome Bool :=
  let req : Request := ⟨"HEAD", baseUrl c ++ "/blobs/" ++ digest, []⟩
  match t with
  | .error e => (req, .rejected (.transport e))
  | .ok r => (req, .resolved (r.res.statusCode == 200))

/-- The recursive `fetch(url)` of `blob()` (lines 155-204), buffered path;
the streaming branch (lines 167-188) runs the identical counter/redirect
logic and differs only in resolving a paused stream instead of the body.
`loop` is the closure counter: `if (loop++ === 5) reject('redirect looped 5
times ' + url)` fires at call entry, before any request is issued.  A response
whose `location` header is truthy causes a recursive call on
`urlModule.resolve(url, location)` (modelled by the parameter `resolveUrl`);
otherwise the status must be 200.  Returns the requests issued and the
outcome. -/
def fetchGo (resolveUrl : String → String → String) :
    Nat → String → List TResult → List Request × Outcome String
  | loop, url, script =>
    if loop == 5 then
      ([], .rejected (.error ("redirect looped 5 times " ++ url)))
    else
      match script with
      | [] => ([⟨"GET", url, []⟩], .pending)
      | .error e :: _ => ([⟨"GET", url, []⟩], .rejected (.transport e))
      | .ok r :: rest =>
          if truthyStr r.res.location then
            let next := fetchGo resolveUrl (loop + 1)
              (resolveUrl url (r.res.location.getD "")) rest
            (⟨"GET", url, []⟩ :: next.1, next.2)
          else if r.res.statusCode != 200 then
            ([⟨"GET", url, []⟩], .rejected (.error ("unexpected status code " ++
              toString r.res.statusCode ++ " " ++ r.body)))
          else
            ([⟨"GET", url, []⟩], .resolved r.body)

/-- `blob(digest)` (lines 149-206): start the fetch loop at the blob URL with
the counter at 0. -/
def blob (c : RegistryClient) (resolveUrl : String → String → String)
    (digest : String) (script : List TResult) : List Request × Outcome String :=
  fetchGo resolveUrl 0 (baseUrl c ++ "/blobs/" ++ digest) script

/-- The byte source handed to `upload`: a Buffer or a stream (its chunks in
emission order). -/
inductive UploadSource
  | buffer (b : Bytes)
  | stream (chunks : List Bytes)

/-- All bytes the source yields, in order. -/
def sourceBytes : UploadSource → Bytes
  | .buffer b => b
  | .stream cs => cs.flatMap id

structure UploadResult where
  contentLength : Nat
  digest : String
  deriving DecidableEq

/-- Lines 210-218: for a Buffer, a falsy `contentLength` argument is replaced
by the buffer's length; a stream's is passed through. -/
def effContentLength : UploadSource → Option Nat → Option Nat
  | .buffer b, cl0 => if truthyNum cl0 then cl0 else some b.length
  | .stream _, cl0 => cl0

/-- Lines 210-218: for a Buffer, a falsy `digest` argument is replaced by the
locally computed sha256; a stream's is passed through. -/
def effDigest : UploadSource → Option String → Option String
  | .buffer b, d0 => if truthyStr d0 then d0 else some (sha256digest b)
  | .stream _, d0 => d0

/-- `upload(blob, contentLength?, digest?)` (lines 208-349).

Preprocessing (210-218): for a Buffer, a falsy `contentLength` is replaced by
the buffer length and a falsy `digest` by the locally computed sha256.

Initiate (221-241): POST `blobs/uploads/`; transport error rejects; a falsy
`docker-upload-uuid` header rejects.

Monolithic path (243-277), taken iff `contentLength && digest` are both
truthy: PUT `blobs/uploads/{uuid}?digest={digest}` with the content; status
must be 201; resolves `{contentLength: contentLength + 0, digest:
res.headers['docker-content-digest'] + ''}` — the SERVER header string.

Chunked path (280-346) otherwise: PATCH `blobs/uploads/{uuid}` streaming the
content while hashing every byte and counting the length; the PATCH callback
reads `res.headers['docker-upload-uuid']` BEFORE checking `err` (line 295 vs
299), so a transport error there throws a TypeError on the undefined response
and the promise never settles (`crashed`); on status 204 the session id is
rotated if the header is truthy, and a finalize PUT
`blobs/uploads/{uuid}?digest={local digest}` with empty payload must return
201, resolving `{accumulated length, locally computed digest}`. -/
def upload (c : RegistryClient) (source : UploadSource)
    (contentLength0 : Option Nat) (digest0 : Option String)
    (script : List TResult) : List Request × Outcome UploadResult :=
  let contentLength : Option Nat := effContentLength source contentLength0
  let digest : Option String := effDigest source digest0
  let bytes := sourceBytes source
  let initReq : Request := ⟨"POST", baseUrl c ++ "/blobs/uploads/", []⟩
  match script with
  | [] => ([initReq], .pending)
  | .error e :: _ => ([initReq], .rejected (.transport e))
  | .ok r1 :: rest1 =>
    -- line 238: `if (!uuid)` reject — branches swapped here to keep the test
    -- positive; rejection covers an absent and an empty header alike
    if truthyStr r1.res.dockerUploadUuid then
      let uuid := r1.res.dockerUploadUuid.getD ""
      if truthyNum contentLength && truthyStr digest then
        let putReq : Request :=
          ⟨"PUT", baseUrl c ++ "/blobs/uploads/" ++ uuid ++ "?digest=" ++
            digest.getD "", bytes⟩
        match rest1 with
        | [] => ([initReq, putReq], .pending)
        | .error e :: _ => ([initReq, putReq], .rejected (.transport e))
        | .ok r2 :: _ =>
          if r2.res.statusCode != 201 then
            ([initReq, putReq], .rejected (.error ("unexpected status code " ++
              toString r2.res.statusCode ++ " for upload.")))
          else
            ([initReq, putReq],
             .resolved ⟨contentLength.getD 0, plusEmpty r2.res.dockerContentDigest⟩)
      else
        let chunkDigest := sha256digest bytes
        let patchReq : Request := ⟨"PATCH", baseUrl c ++ "/blobs/uploads/" ++ uuid, bytes⟩
        match rest1 with
        | [] => ([initReq, patchReq], .pending)
        | .error _ :: _ => ([initReq, patchReq], .crashed)
        | .ok r2 :: rest2 =>
          let uuid2 := if truthyStr r2.res.dockerUploadUuid
                       then r2.res.dockerUploadUuid.getD "" else uuid
          if r2.res.statusCode != 204 then
            ([initReq, patchReq], .rejected (.error ("unexpected status code " ++
              toString r2.res.statusCode ++ " for patch upload")))
          else
            let finReq : Request :=
              ⟨"PUT", baseUrl c ++ "/blobs/uploads/" ++ uuid2 ++ "?digest=" ++
                chunkDigest, []⟩
            match rest2 with
            | [] => ([initReq, patchReq, finReq], .pending)
            | .error e :: _ => ([initReq, patchReq, finReq], .rejected (.transport e))
            | .ok r3 :: _ =>
              if r3.res.statusCode != 201 then
                ([initReq, patchReq, finReq], .rejected (.error
                  ("unexpected status code " ++ toString r3.res.statusCode ++
                   " for upload finalization")))
              else
                ([initReq, patchReq, finReq], .resolved ⟨bytes.length, chunkDigest⟩)
    else
      ([initReq], .rejected (.error
        "request to start upload did not provide uuid in header docker-upload-uuid."))

/-! ## Fixtures for concrete instances -/

/-- A concrete client, `new RegistryClient('gcr.io', 'my/repo', auth)`. -/
def cl : RegistryClient := ⟨"gcr.io", "my/repo"⟩

/-- `JSON.parse` restricted to the bodies the concrete instances use; on each
of these strings the value is exactly what node's `JSON.parse` returns, and
`none` models the parse throwing on a non-JSON body. -/
def parseFixture : String → Option Json := fun s =>
  if s = "\x7b\"name\":\"r\",\"tags\":[\"a\"]\x7d" then
    some (Json.obj [("name", Json.str "r"), ("tags", Json.arr [Json.str "a"])])
  else if s = "\x7b\"config\":null\x7d" then
    some (Json.obj [("config", Json.null)])
  else if s = "\x7b\"config\":\x7b\x7d\x7d" then
    some (Json.obj [("config", Json.obj [])])
  else none

/-- `JSON.parse` of the body `"null"`: node parses it to the JSON value
`null`. -/
def parseNullFixture : String → Option Json := fun s =>
  if s = "null" then some Json.null else none

/-- The URLs a redirect chain walks: each hop resolves the `location` header
value against the current URL (`urlModule.resolve`, the `resolveUrl`
parameter). -/
def chainUrl (resolveUrl : String → String → String) (u : String)
    (rs : List Reply) : String :=
  rs.foldl (fun url r => resolveUrl url (r.res.location.getD "")) u

/-- The GET requests issued while following a redirect chain. -/
def chainReqs (resolveUrl : String → String → String) (u : String) :
    List Reply → List Request
  | [] => []
  | r :: rs => ⟨"GET", u, []⟩ ::
      chainReqs resolveUrl (resolveUrl u (r.res.location.getD "")) rs

/-! ## Claim theorems -/

theorem truthyStr_none : truthyStr none = false := rfl

theorem truthyStr_some_empty : truthyStr (some "") = false := by
  simp [truthyStr]

theorem truthyStr_some_ne {s : String} (h : s ≠ "") : truthyStr (some s) = true := by
  simp [truthyStr, h]

/-- C10: `tags()` resolves with the JSON-parsed response body for every
received response, regardless of the HTTP status code — the callback performs
no status check — and rejects exactly when the transport reports an error or
the body fails to parse. -/
theorem tags_ignores_status (c : RegistryClient) (parse : String → Option Json)
    (res : Response) (body : String) (j : Json) (e : String) :
    (parse body = some j →
      (tags c parse (.ok ⟨res, body⟩)).2 = .resolved j) ∧
    (parse body = none →
      (tags c parse (.ok ⟨res, body⟩)).2 = .rejected (.parseErr body)) ∧
    (tags c parse (.error e)).2 = .rejected (.transport e) := by
  refine ⟨fun h => ?_, fun h => ?_, rfl⟩ <;> simp [tags, h]

/-- Witness for `tags_ignores_status`: a 500 response with a JSON body still
resolves, and a non-JSON body rejects. -/
theorem tags_ignores_status_witness :
    (tags cl parseFixture
        (.ok ⟨⟨500, none, none, none⟩, "\x7b\"name\":\"r\",\"tags\":[\"a\"]\x7d"⟩)).2 =
      .resolved (Json.obj [("name", Json.str "r"), ("tags", Json.arr [Json.str "a"])]) ∧
    (tags cl parseFixture (.ok ⟨⟨200, none, none, none⟩, "oops"⟩)).2 =
      .rejected (.parseErr "oops") :=
  ⟨(tags_ignores_status cl parseFixture ⟨500, none, none, none⟩ _ _ "").1 rfl,
   (tags_ignores_status cl parseFixture ⟨200, none, none, none⟩ "oops"
      (Json.num 0) "").2.1 rfl⟩

/-- C7: for every call to `blobExists` that receives a response, the promise
resolves `true` iff the status is exactly 200; in particular a plain 404
resolves `false` and does not reject. -/
theorem blobExists_iff_200 (c : RegistryClient) (digest : String)
    (res : Response) (body : String) :
    ((blobExists c digest (.ok ⟨res, body⟩)).2 = .resolved true ↔
      res.statusCode = 200) ∧
    (res.statusCode = 404 →
      (blobExists c digest (.ok ⟨res, body⟩)).2 = .resolved false) := by
  constructor
  · simp [blobExists]
  · intro h; simp [blobExists, h]

/-- Witness for `blobExists_iff_200`: 404 resolves `false`, 200 resolves
`true`. -/
theorem blobExists_iff_200_witness :
    (blobExists cl "sha256:d" (.ok ⟨⟨404, none, none, none⟩, ""⟩)).2 =
      .resolved false ∧
    (blobExists cl "sha256:d" (.ok ⟨⟨200, none, none, none⟩, ""⟩)).2 =
      .resolved true :=
  ⟨(blobExists_iff_200 cl "sha256:d" ⟨404, none, none, none⟩ "").2 rfl,
   (blobExists_iff_200 cl "sha256:d" ⟨200, none, none, none⟩ "").1.mpr rfl⟩

/-- C6 as stated is refuted: a 200 response whose JSON-parsed body CONTAINS a
`config` field (value `null` here) is rejected, not resolved, because line 76
tests JS truthiness of `parsed.config`, not presence of the field. -/
theorem manifest_config_null_counterexample :
    (Json.obj [("config", Json.null)]).getProp "config" = some Json.null ∧
    (manifest cl parseFixture "latest"
        (.ok ⟨⟨200, none, none, none⟩, "\x7b\"config\":null\x7d"⟩)).2 =
      .rejected (.error
        "unexpected status code 200 from docker registry. response \x7b\"config\":null\x7d") :=
  ⟨rfl, rfl⟩

/-- C6 amended: `manifest(tag)` resolves with the parsed body iff the status
is 200 AND the parsed body has a TRUTHY `config` field (present and not
`null`/`false`/`0`/`""`); any other received response rejects with the
unexpected-status error — including a non-200 response whose body parses to
`null`, since the `&&` short-circuits before reading `parsed.config`; a 200
response whose body parses to `null` rejects with the TypeError thrown by
that read; an unparseable body rejects with the parse error, and a transport
error rejects with it. -/
theorem manifest_outcome_cases (c : RegistryClient) (parse : String → Option Json)
    (tag : String) (res : Response) (body : String) (j : Json) (e : String) :
    (parse body = some j → j ≠ Json.null →
      (manifest c parse tag (.ok ⟨res, body⟩)).2 =
        if res.statusCode == 200 && truthyJson (j.getProp "config") then
          .resolved j
        else
          .rejected (.error ("unexpected status code " ++
            toString res.statusCode ++ " from docker registry. response " ++ body))) ∧
    (parse body = some Json.null → res.statusCode = 200 →
      (manifest c parse tag (.ok ⟨res, body⟩)).2 = .rejected .typeError) ∧
    (parse body = some Json.null → res.statusCode ≠ 200 →
      (manifest c parse tag (.ok ⟨res, body⟩)).2 =
        .rejected (.error ("unexpected status code " ++
          toString res.statusCode ++ " from docker registry. response " ++ body))) ∧
    (parse body = none →
      (manifest c parse tag (.ok ⟨res, body⟩)).2 = .rejected (.parseErr body)) ∧
    (manifest c parse tag (.error e)).2 = .rejected (.transport e) := by
  refine ⟨fun hp hj => ?_, fun hp h200 => ?_, fun hp hne => ?_, fun hp => ?_, rfl⟩
  · cases j with
    | null => exact absurd rfl hj
    | bool b => cases hsc : res.statusCode == 200 <;> simp [manifest, hp, hsc, apply_ite]
    | num n => cases hsc : res.statusCode == 200 <;> simp [manifest, hp, hsc, apply_ite]
    | str s => cases hsc : res.statusCode == 200 <;> simp [manifest, hp, hsc, apply_ite]
    | arr a => cases hsc : res.statusCode == 200 <;> simp [manifest, hp, hsc, apply_ite]
    | obj f => cases hsc : res.statusCode == 200 <;> simp [manifest, hp, hsc, apply_ite]
  · simp [manifest, hp, h200]
  · have hsc : (res.statusCode == 200) = false := by simpa using hne
    simp [manifest, hp, hsc]
  · simp [manifest, hp]

/-- Witness for `manifest_outcome_cases`: a 200 response with a truthy
`config` resolves; a 404 with body `null` rejects with the unexpected-status
error; a non-JSON body rejects with the parse error. -/
theorem manifest_outcome_cases_witness :
    (manifest cl parseFixture "latest"
        (.ok ⟨⟨200, none, none, none⟩, "\x7b\"config\":\x7b\x7d\x7d"⟩)).2 =
      .resolved (Json.obj [("config", Json.obj [])]) ∧
    (manifest cl parseNullFixture "latest" (.ok ⟨⟨404, none, none, none⟩, "null"⟩)).2 =
      .rejected (.error
        "unexpected status code 404 from docker registry. response null") ∧
    (manifest cl parseFixture "latest" (.ok ⟨⟨200, none, none, none⟩, "nope"⟩)).2 =
      .rejected (.parseErr "nope") :=
  ⟨((manifest_outcome_cases cl parseFixture "latest" ⟨200, none, none, none⟩
      "\x7b\"config\":\x7b\x7d\x7d" (Json.obj [("config", Json.obj [])]) "").1 rfl
      (fun h => Json.noConfusion h)).trans rfl,
   (manifest_outcome_cases cl parseNullFixture "latest" ⟨404, none, none, none⟩
      "null" (Json.num 0) "").2.2.1 rfl (by decide),
   (manifest_outcome_cases cl parseFixture "latest" ⟨200, none, none, none⟩
      "nope" (Json.num 0) "").2.2.2.1 rfl⟩

set_option maxRecDepth 10000 in
/-- C8 as stated is refuted for the empty tag: `manifestUpload` called WITH a
tag, the empty string, still puts the locally computed digest in the request
path, because line 99 tests JS falsiness (`if (!tag)`) and `''` is falsy. -/
theorem manifestUpload_empty_tag_counterexample :
    (manifestUpload cl (some "") [] (.ok ⟨⟨201, none, none, none⟩, ""⟩)).1.url =
      "https://gcr.io/v2/my/repo/manifests/sha256:e3b0c44298fc1c149afbf4c8996fb92427ae41e4649b934ca495991b7852b855" ∧
    (manifestUpload cl (some "") [] (.ok ⟨⟨201, none, none, none⟩, ""⟩)).1.url ≠
      "https://gcr.io/v2/my/repo/manifests/" := by
  decide

/-- C8 amended: the manifest request's path reference is the given tag when it
is a non-empty string, and the locally computed sha256 digest of the manifest
bytes when the tag is absent (`false`) or the empty string; the digest is a
pure function of the bytes (so two calls over identical bytes use the
identical digest), and on an accepted status the resolved result's digest
field is that same digest. -/
theorem manifestUpload_ref_and_digest (c : RegistryClient) (tag : Option String)
    (s : String) (buf : Bytes) (t : TResult) (res : Response) (body : String) :
    ((manifestUpload c none buf t).1.url =
        baseUrl c ++ "/manifests/" ++ sha256digest buf) ∧
    (s ≠ "" → (manifestUpload c (some s) buf t).1.url =
        baseUrl c ++ "/manifests/" ++ s) ∧
    ((manifestUpload c (some "") buf t).1.url =
        baseUrl c ++ "/manifests/" ++ sha256digest buf) ∧
    (res.statusCode = 200 ∨ res.statusCode = 201 →
      (manifestUpload c tag buf (.ok ⟨res, body⟩)).2 =
        .resolved ⟨res.statusCode, sha256digest buf, body⟩) := by
  refine ⟨rfl, fun hs => ?_, rfl, fun hst => ?_⟩
  · simp [manifestUpload, manifestRef, hs]
  · rcases hst with h | h <;> simp [manifestUpload, h]

/-- Witness for `manifestUpload_ref_and_digest`: tag `v1` lands in the path
and a 201 response resolves with the computed digest. -/
theorem manifestUpload_ref_and_digest_witness :
    (manifestUpload cl (some "v1") [] (.ok ⟨⟨201, none, none, none⟩, ""⟩)).1.url =
      "https://gcr.io/v2/my/repo/manifests/v1" ∧
    (manifestUpload cl (some "v1") [] (.ok ⟨⟨201, none, none, none⟩, "ok"⟩)).2 =
      .resolved ⟨201, sha256digest [], "ok"⟩ :=
  ⟨(manifestUpload_ref_and_digest cl (some "v1") "v1" []
      (.ok ⟨⟨201, none, none, none⟩, ""⟩) ⟨201, none, none, none⟩ "").2.1
      (by decide),
   (manifestUpload_ref_and_digest cl (some "v1") "v1" []
      (.ok ⟨⟨201, none, none, none⟩, ""⟩) ⟨201, none, none, none⟩ "ok").2.2.2
      (Or.inr rfl)⟩

set_option maxRecDepth 10000 in
/-- C3 as stated is refuted: uploading a zero-length Buffer issues THREE
requests, not two — `contentLength` becomes `0`, which is falsy, so line
243's `if (contentLength && digest)` sends the upload down the chunked path,
adding an empty-payload append between initiate and finalize. -/
theorem upload_empty_buffer_counterexample :
    (upload cl (.buffer []) none none
      [.ok ⟨⟨202, some "u1", none, none⟩, ""⟩,
       .ok ⟨⟨204, none, none, none⟩, ""⟩,
       .ok ⟨⟨201, none, none, none⟩, ""⟩]).1.length = 3 ∧
    ¬ (upload cl (.buffer []) none none
      [.ok ⟨⟨202, some "u1", none, none⟩, ""⟩,
       .ok ⟨⟨204, none, none, none⟩, ""⟩,
       .ok ⟨⟨201, none, none, none⟩, ""⟩]).1.length = 2 := by
  decide

set_option maxRecDepth 10000 in
/-- C3 amended: uploading a zero-length Buffer issues exactly 3 requests
(initiate, zero-byte append, finalize) and resolves with digest equal to the
sha256 of the empty string,
`sha256:e3b0c44298fc1c149afbf4c8996fb92427ae41e4649b934ca495991b7852b855`. -/
theorem upload_empty_buffer_requests :
    upload cl (.buffer []) none none
      [.ok ⟨⟨202, some "u1", none, none⟩, ""⟩,
       .ok ⟨⟨204, none, none, none⟩, ""⟩,
       .ok ⟨⟨201, none, none, none⟩, ""⟩] =
      ([⟨"POST", "https://gcr.io/v2/my/repo/blobs/uploads/", []⟩,
        ⟨"PATCH", "https://gcr.io/v2/my/repo/blobs/uploads/u1", []⟩,
        ⟨"PUT", "https://gcr.io/v2/my/repo/blobs/uploads/u1?digest=sha256:e3b0c44298fc1c149afbf4c8996fb92427ae41e4649b934ca495991b7852b855", []⟩],
       .resolved ⟨0, "sha256:e3b0c44298fc1c149afbf4c8996fb92427ae41e4649b934ca495991b7852b855"⟩) := by
  decide

/-- C5 (code bug at the append step): with a transport error on the chunked
PATCH request the promise neither resolves nor rejects — the callback reads
`res.headers['docker-upload-uuid']` (line 295) before checking `err` (line
299), so it throws a TypeError on the undefined response and the operation
never settles.  A transport error at each of the other three steps does
reject the promise with exactly that failure. -/
theorem upload_patch_error_crashes :
    (upload cl (.stream [[1, 2]]) none none [.error "econnreset"]).2 =
      .rejected (.transport "econnreset") ∧
    (upload cl (.stream [[1, 2]]) (some 2) (some "sha256:ab")
        [.ok ⟨⟨202, some "u1", none, none⟩, ""⟩, .error "econnreset"]).2 =
      .rejected (.transport "econnreset") ∧
    (upload cl (.stream [[1, 2]]) none none
        [.ok ⟨⟨202, some "u1", none, none⟩, ""⟩,
         .ok ⟨⟨204, none, none, none⟩, ""⟩, .error "econnreset"]).2 =
      .rejected (.transport "econnreset") ∧
    (upload cl (.stream [[1, 2]]) none none
        [.ok ⟨⟨202, some "u1", none, none⟩, ""⟩, .error "econnreset"]).2 =
      Outcome.crashed :=
  ⟨rfl, rfl, rfl, rfl⟩

/-- C1 as stated is refuted: a successful monolithic upload resolves with the
REGISTRY's `docker-content-digest` response header, not with the
caller-supplied digest — line 268 returns
`res.headers['docker-content-digest'] + ''`. -/
theorem upload_monolithic_digest_counterexample :
    (upload cl (.buffer [97]) (some 1) (some "sha256:clientdigest")
      [.ok ⟨⟨202, some "u1", none, none⟩, ""⟩,
       .ok ⟨⟨201, none, some "sha256:serverdigest", none⟩, ""⟩]).2 =
      .resolved ⟨1, "sha256:serverdigest"⟩ ∧
    "sha256:serverdigest" ≠ "sha256:clientdigest" :=
  ⟨rfl, by decide⟩

/-- C1 amended: a successful monolithic upload (status 201 on the single
content-carrying PUT) resolves with the effective content length paired with
the registry's `docker-content-digest` response header coerced to a string
(`"undefined"` when absent); the caller-supplied or locally precomputed
digest appears only as the PUT URL's digest query parameter, and the bytes
sent are exactly the source's bytes. -/
theorem upload_monolithic_result (c : RegistryClient) (source : UploadSource)
    (cl0 : Option Nat) (d0 : Option String) (r1 r2 : Response) (b1 b2 : String)
    (rest : List TResult)
    (hu : truthyStr r1.dockerUploadUuid = true)
    (hcl : truthyNum (effContentLength source cl0) = true)
    (hd : truthyStr (effDigest source d0) = true)
    (hs : r2.statusCode = 201) :
    upload c source cl0 d0 (.ok ⟨r1, b1⟩ :: .ok ⟨r2, b2⟩ :: rest) =
      ([⟨"POST", baseUrl c ++ "/blobs/uploads/", []⟩,
        ⟨"PUT", baseUrl c ++ "/blobs/uploads/" ++ r1.dockerUploadUuid.getD "" ++
          "?digest=" ++ (effDigest source d0).getD "", sourceBytes source⟩],
       .resolved ⟨(effContentLength source cl0).getD 0,
                  plusEmpty r2.dockerContentDigest⟩) := by
  simp [upload, hu, hcl, hd, hs]

/-- Witness for `upload_monolithic_result`: a two-byte buffer with a supplied
digest resolves with the server header digest. -/
theorem upload_monolithic_result_witness :
    upload cl (.buffer [104, 105]) none (some "sha256:feed")
      [.ok ⟨⟨202, some "u9", none, none⟩, ""⟩,
       .ok ⟨⟨201, none, some "sha256:cafe", none⟩, ""⟩] =
      ([⟨"POST", "https://gcr.io/v2/my/repo/blobs/uploads/", []⟩,
        ⟨"PUT", "https://gcr.io/v2/my/repo/blobs/uploads/u9?digest=sha256:feed",
          [104, 105]⟩],
       .resolved ⟨2, "sha256:cafe"⟩) :=
  upload_monolithic_result cl (.buffer [104, 105]) none (some "sha256:feed")
    ⟨202, some "u9", none, none⟩ ⟨201, none, some "sha256:cafe", none⟩ "" "" []
    rfl rfl rfl rfl

/-- C2: for every successful chunked upload (status 204 on the append, 201 on
the finalize) the finalize PUT's digest query parameter is the sha256 locally
accumulated over exactly the bytes the append (PATCH) request transmitted —
never a server-reported digest — and the promise resolves with exactly
{accumulated byte count, that locally computed digest}. -/
theorem upload_chunked_result (c : RegistryClient) (source : UploadSource)
    (cl0 : Option Nat) (d0 : Option String) (r1 r2 r3 : Response)
    (b1 b2 b3 : String) (rest : List TResult)
    (hu : truthyStr r1.dockerUploadUuid = true)
    (hmono : (truthyNum (effContentLength source cl0) &&
              truthyStr (effDigest source d0)) = false)
    (h2 : r2.statusCode = 204) (h3 : r3.statusCode = 201) :
    upload c source cl0 d0 (.ok ⟨r1, b1⟩ :: .ok ⟨r2, b2⟩ :: .ok ⟨r3, b3⟩ :: rest) =
      ([⟨"POST", baseUrl c ++ "/blobs/uploads/", []⟩,
        ⟨"PATCH", baseUrl c ++ "/blobs/uploads/" ++ r1.dockerUploadUuid.getD "",
          sourceBytes source⟩,
        ⟨"PUT", baseUrl c ++ "/blobs/uploads/" ++
            (if truthyStr r2.dockerUploadUuid then r2.dockerUploadUuid.getD ""
             else r1.dockerUploadUuid.getD "") ++
          "?digest=" ++ sha256digest (sourceBytes source), []⟩],
       .resolved ⟨(sourceBytes source).length, sha256digest (sourceBytes source)⟩) := by
  simp [upload, hu, hmono, h2, h3]

/-- Witness for `upload_chunked_result`: a three-byte stream of unknown
length; the finalize response even carries a (different) server digest
header, which is ignored. -/
theorem upload_chunked_result_witness :
    upload cl (.stream [[1], [2, 3]]) none none
      [.ok ⟨⟨202, some "u1", none, none⟩, ""⟩,
       .ok ⟨⟨204, none, none, none⟩, ""⟩,
       .ok ⟨⟨201, none, some "sha256:server", none⟩, ""⟩] =
      ([⟨"POST", "https://gcr.io/v2/my/repo/blobs/uploads/", []⟩,
        ⟨"PATCH", "https://gcr.io/v2/my/repo/blobs/uploads/u1", [1, 2, 3]⟩,
        ⟨"PUT", "https://gcr.io/v2/my/repo/blobs/uploads/u1?digest=" ++
          sha256digest [1, 2, 3], []⟩],
       .resolved ⟨3, sha256digest [1, 2, 3]⟩) :=
  upload_chunked_result cl (.stream [[1], [2, 3]]) none none
    ⟨202, some "u1", none, none⟩ ⟨204, none, none, none⟩
    ⟨201, none, some "sha256:server", none⟩ "" "" "" [] rfl rfl rfl rfl

set_option maxRecDepth 10000 in
/-- C9 as stated is refuted when the rotated id is the empty string: the
append response CARRIES a `docker-upload-uuid` header (value `""`), yet the
finalize URL keeps the initiate session id `u1` — line 295 tests JS
truthiness of the header value, and `''` is falsy. -/
theorem upload_uuid_rotation_counterexample :
    (Response.mk 204 (some "") none none).dockerUploadUuid = some "" ∧
    ((upload cl (.buffer []) none none
      [.ok ⟨⟨202, some "u1", none, none⟩, ""⟩,
       .ok ⟨⟨204, some "", none, none⟩, ""⟩,
       .ok ⟨⟨201, none, none, none⟩, ""⟩]).1.getLastD ⟨"", "", []⟩).url =
      "https://gcr.io/v2/my/repo/blobs/uploads/u1?digest=sha256:e3b0c44298fc1c149afbf4c8996fb92427ae41e4649b934ca495991b7852b855" ∧
    ((upload cl (.buffer []) none none
      [.ok ⟨⟨202, some "u1", none, none⟩, ""⟩,
       .ok ⟨⟨204, some "", none, none⟩, ""⟩,
       .ok ⟨⟨201, none, none, none⟩, ""⟩]).1.getLastD ⟨"", "", []⟩).url ≠
      "https://gcr.io/v2/my/repo/blobs/uploads/?digest=sha256:e3b0c44298fc1c149afbf4c8996fb92427ae41e4649b934ca495991b7852b855" := by
  decide

/-- C9 amended: in a successful chunked upload the finalize request's URL
uses the append response's `docker-upload-uuid` session id whenever that
header is present with a NON-EMPTY value, and the initiate response's session
id otherwise — including when the header is carried but empty. -/
theorem upload_uuid_rotation (c : RegistryClient) (source : UploadSource)
    (cl0 : Option Nat) (d0 : Option String) (r1 r2 r3 : Response)
    (b1 b2 b3 : String) (s : String)
    (hu : truthyStr r1.dockerUploadUuid = true)
    (hmono : (truthyNum (effContentLength source cl0) &&
              truthyStr (effDigest source d0)) = false)
    (h2 : r2.statusCode = 204) (h3 : r3.statusCode = 201) :
    (r2.dockerUploadUuid = some s → s ≠ "" →
      ((upload c source cl0 d0
          [.ok ⟨r1, b1⟩, .ok ⟨r2, b2⟩, .ok ⟨r3, b3⟩]).1.getLastD ⟨"", "", []⟩).url =
        baseUrl c ++ "/blobs/uploads/" ++ s ++ "?digest=" ++
          sha256digest (sourceBytes source)) ∧
    (r2.dockerUploadUuid = none ∨ r2.dockerUploadUuid = some "" →
      ((upload c source cl0 d0
          [.ok ⟨r1, b1⟩, .ok ⟨r2, b2⟩, .ok ⟨r3, b3⟩]).1.getLastD ⟨"", "", []⟩).url =
        baseUrl c ++ "/blobs/uploads/" ++ r1.dockerUploadUuid.getD "" ++
          "?digest=" ++ sha256digest (sourceBytes source)) := by
  constructor
  · intro hsome hne
    simp [upload, hu, hmono, h2, h3, hsome, truthyStr_some_ne hne]
  · intro hcase
    rcases hcase with h | h <;>
      simp [upload, hu, hmono, h2, h3, h, truthyStr_none, truthyStr_some_empty]

/-- Witness for `upload_uuid_rotation`: a rotated non-empty id `u2` is used
by the finalize request. -/
theorem upload_uuid_rotation_witness :
    ((upload cl (.stream [[9]]) none none
        [.ok ⟨⟨202, some "u1", none, none⟩, ""⟩,
         .ok ⟨⟨204, some "u2", none, none⟩, ""⟩,
         .ok ⟨⟨201, none, none, none⟩, ""⟩]).1.getLastD ⟨"", "", []⟩).url =
      "https://gcr.io/v2/my/repo/blobs/uploads/u2?digest=" ++ sha256digest [9] :=
  (upload_uuid_rotation cl (.stream [[9]]) none none
    ⟨202, some "u1", none, none⟩ ⟨204, some "u2", none, none⟩
    ⟨201, none, none, none⟩ "" "" "" "u2" rfl rfl rfl rfl).1 rfl (by decide)

/-- Helper: while the hop counter stays at most 5, the fetch loop consumes
one redirect reply per request, resolving each `location` against the current
URL, and continues on the rest of the script with the counter advanced. -/
theorem fetchGo_chain (resolveUrl : String → String → String) (rs : List Reply) :
    ∀ (rest : List TResult) (loop : Nat) (u : String),
      (∀ r ∈ rs, truthyStr r.res.location = true) →
      loop + rs.length ≤ 5 →
      fetchGo resolveUrl loop u (rs.map Except.ok ++ rest) =
        (chainReqs resolveUrl u rs ++
           (fetchGo resolveUrl (loop + rs.length)
              (chainUrl resolveUrl u rs) rest).1,
         (fetchGo resolveUrl (loop + rs.length)
            (chainUrl resolveUrl u rs) rest).2) := by
  induction rs with
  | nil =>
      intro rest loop u _ _
      simp [chainReqs, chainUrl]
  | cons r rs ih =>
      intro rest loop u hall hle
      simp only [List.length_cons] at hle
      have hr : truthyStr r.res.location = true := hall r (by simp)
      have hih := ih rest (loop + 1) (resolveUrl u (r.res.location.getD ""))
        (fun x hx => hall x (by simp [hx])) (by omega)
      have hloop : (loop == 5) = false := by
        simp only [beq_eq_false_iff_ne, ne_eq]
        omega
      have harith : loop + 1 + rs.length = loop + (rs.length + 1) := by omega
      rw [fetchGo.eq_def]
      simp only [List.map_cons, List.cons_append, hloop, Bool.false_eq_true,
        if_false, hr, if_true, hih, harith, List.length_cons]
      simp [chainReqs, chainUrl]

/-- C4: for every `blob(digest)` fetch, a response chain of at most 4
redirect replies followed by a terminal 200 resolves with the terminal body
(one request per hop plus the terminal request), while a chain of exactly 5
redirect replies rejects with `redirect looped 5 times <last resolved URL>`
after issuing exactly 5 requests — the 6th request is never issued and the
terminal reply is never consumed. -/
theorem blob_redirect_bound (c : RegistryClient)
    (resolveUrl : String → String → String) (digest : String)
    (rs : List Reply) (fin : Reply)
    (hall : ∀ r ∈ rs, truthyStr r.res.location = true)
    (hnr : truthyStr fin.res.location = false)
    (hst : fin.res.statusCode = 200) :
    (rs.length ≤ 4 →
      blob c resolveUrl digest (rs.map Except.ok ++ [Except.ok fin]) =
        (chainReqs resolveUrl (baseUrl c ++ "/blobs/" ++ digest) rs ++
           [⟨"GET", chainUrl resolveUrl (baseUrl c ++ "/blobs/" ++ digest) rs, []⟩],
         .resolved fin.body)) ∧
    (rs.length = 5 →
      blob c resolveUrl digest (rs.map Except.ok ++ [Except.ok fin]) =
        (chainReqs resolveUrl (baseUrl c ++ "/blobs/" ++ digest) rs,
         .rejected (.error ("redirect looped 5 times " ++
           chainUrl resolveUrl (baseUrl c ++ "/blobs/" ++ digest) rs)))) := by
  constructor
  · intro hlen
    rw [blob, fetchGo_chain resolveUrl rs [Except.ok fin] 0
      (baseUrl c ++ "/blobs/" ++ digest) hall (by omega)]
    have h5 : ((0 + rs.length) == 5) = false := by
      have : rs.length ≠ 5 := by omega
      simpa using this
    have hne : ¬ rs.length = 5 := by omega
    rw [fetchGo]
    simp [h5, hne, hnr, hst]
  · intro hlen
    rw [blob, fetchGo_chain resolveUrl rs [Except.ok fin] 0
      (baseUrl c ++ "/blobs/" ++ digest) hall (by omega)]
    rw [fetchGo]
    simp [hlen]

/-- Witness for `blob_redirect_bound`: two redirects then 200 resolve `OK`
after 3 requests; five redirects reject after exactly 5 requests, naming the
last resolved URL `e`. -/
theorem blob_redirect_bound_witness :
    blob cl (fun _ l => l) "sha256:d"
      ([Reply.mk ⟨307, none, none, some "a"⟩ "",
        Reply.mk ⟨307, none, none, some "b"⟩ ""].map Except.ok ++
       [Except.ok ⟨⟨200, none, none, none⟩, "OK"⟩]) =
      ([⟨"GET", "https://gcr.io/v2/my/repo/blobs/sha256:d", []⟩,
        ⟨"GET", "a", []⟩, ⟨"GET", "b", []⟩], .resolved "OK") ∧
    blob cl (fun _ l => l) "sha256:d"
      ([Reply.mk ⟨307, none, none, some "a"⟩ "",
        Reply.mk ⟨307, none, none, some "b"⟩ "",
        Reply.mk ⟨307, none, none, some "c"⟩ "",
        Reply.mk ⟨307, none, none, some "d"⟩ "",
        Reply.mk ⟨307, none, none, some "e"⟩ ""].map Except.ok ++
       [Except.ok ⟨⟨200, none, none, none⟩, "OK"⟩]) =
      ([⟨"GET", "https://gcr.io/v2/my/repo/blobs/sha256:d", []⟩,
        ⟨"GET", "a", []⟩, ⟨"GET", "b", []⟩, ⟨"GET", "c", []⟩, ⟨"GET", "d", []⟩],
       .rejected (.error "redirect looped 5 times e")) :=
  ⟨(blob_redirect_bound cl (fun _ l => l) "sha256:d"
      [Reply.mk ⟨307, none, none, some "a"⟩ "",
       Reply.mk ⟨307, none, none, some "b"⟩ ""]
      ⟨⟨200, none, none, none⟩, "OK"⟩ (by decide) rfl rfl).1 (by decide),
   (blob_redirect_bound cl (fun _ l => l) "sha256:d"
      [Reply.mk ⟨307, none, none, some "a"⟩ "",
       Reply.mk ⟨307, none, none, some "b"⟩ "",
       Reply.mk ⟨307, none, none, some "c"⟩ "",
       Reply.mk ⟨307, none, none, some "d"⟩ "",
       Reply.mk ⟨307, none, none, some "e"⟩ ""]
      ⟨⟨200, none, none, none⟩, "OK"⟩ (by decide) rfl rfl).2 (by decide)⟩

end Registry
